import Mathlib

/-!
Verification development for the local execution-payload-header construction
pipeline (validator.GetLocalHeader) and the http-rest server constructor (New)
of this repository. Go code is shallowly embedded: machine integers become Nat,
byte strings become lists of Nat, fallible calls become Except, and the pair
return value of GetLocalHeader (pointer, error) becomes a pair of options.
External collaborators (sync checker, optimistic status, parent-state resolver,
payload producer) are fields of the Server structure, as in the Go receiver.
-/

namespace validator

/-- Byte strings (Go byte slices and arrays) are modelled as lists of Nat. -/
abbrev Bytes : Type := List Nat

/-- gRPC status codes used by the pipeline. -/
inductive Code where
  | FailedPrecondition
  | Internal
  | NotFound
  | Unknown
deriving DecidableEq, Repr

/-- A gRPC status error: a code together with a message. -/
structure GrpcError where
  code : Code
  msg : String
deriving DecidableEq, Repr

/-- ethpb.HeaderRequest: slot and proposer index. -/
structure HeaderRequest where
  Slot : Nat
  ProposerIndex : Nat
deriving DecidableEq, Repr

/-- The execution data of a local payload: the fields GetLocalHeader reads. -/
structure ExecutionData where
  ParentHash : Bytes
  BlockHash : Bytes
  GasLimit : Nat
deriving DecidableEq

/-- The blobs bundle of a local payload: the ordered KZG commitment list. -/
structure BlobsBundle where
  KzgCommitments : List Bytes
deriving DecidableEq

/-- A locally produced payload, as consumed by GetLocalHeader. -/
structure LocalPayload where
  ExecutionData : ExecutionData
  BlobsBundle : BlobsBundle
deriving DecidableEq

/-- enginev1.ExecutionPayloadHeaderEPBS: the output header. -/
structure ExecutionPayloadHeaderEPBS where
  ParentBlockHash : Bytes
  ParentBlockRoot : Bytes
  BlockHash : Bytes
  GasLimit : Nat
  BuilderIndex : Nat
  Slot : Nat
  Value : Nat
  BlobKzgCommitmentsRoot : Bytes
deriving DecidableEq

/-- params.BeaconConfig(): the process-wide protocol constants the pipeline
reads (the ePBS fork activation epoch and the slots-per-epoch constant). -/
structure BeaconConfig where
  EPBSForkEpoch : Nat
  SlotsPerEpoch : Nat
deriving DecidableEq, Repr

/-- Modelled from the spec: slots.ToEpoch, absent from the shown source; the
epoch containing a slot is the slot divided by the slots-per-epoch constant. -/
def ToEpoch (cfg : BeaconConfig) (slot : Nat) : Nat :=
  slot / cfg.SlotsPerEpoch

/-- Modelled from the spec: the protocol-defined maximum commitment count MAX
(the capacity of the fixed-capacity commitment list). -/
def MAX_BLOB_COMMITMENTS : Nat := 4096

/-- Modelled from the spec: the opaque deterministic element-hashing rule that
maps the raw bytes of one commitment to a fixed-size leaf digest. Digests are
modelled as natural numbers below 2 ^ 64. -/
def elementHash (c : Bytes) : Nat :=
  c.foldl (fun a b => (a * 1099511628211 + b + 1) % 2 ^ 64) 14695981039346656037 % 2 ^ 64

/-- Modelled from the spec: the pairwise hash combining two sibling digests of
the binary Merkle tree into their parent digest. -/
def pairHash (a b : Nat) : Nat :=
  ((a * 1099511628211 + b + 1) * 1099511628211 + 37) % 2 ^ 64

/-- Hash one level of the Merkle tree: adjacent digests are combined pairwise. -/
def merkleLevel : List Nat → List Nat
  | a :: b :: rest => pairHash a b :: merkleLevel rest
  | [a] => [a]
  | [] => []

/-- Fold a list of leaves up a binary Merkle tree of the given depth. -/
def merkleRoot (leaves : List Nat) : Nat → Nat
  | 0 => leaves.headD 0
  | d + 1 => merkleRoot (merkleLevel leaves) d

/-- Render a digest as a 32-byte value, little-endian base 256. -/
def digestToBytes (n : Nat) : Bytes :=
  (List.range 32).map (fun i => n / 256 ^ i % 256)

/-- Modelled from the spec: ssz.KzgCommitmentsRoot, absent from the shown
source. Computes the deterministic fixed-capacity list commitment root: fails
when the list exceeds MAX, hashes each commitment to a leaf, zero-pads the
leaves up to MAX, folds them up a binary Merkle tree of depth log2 MAX, and
mixes in the actual list length as a final hashing step. -/
def KzgCommitmentsRoot (commitments : List Bytes) : Except String Bytes :=
  if commitments.length > MAX_BLOB_COMMITMENTS then
    .error "ssz: commitment list exceeds maximum capacity"
  else
    let leaves := commitments.map elementHash ++
      List.replicate (MAX_BLOB_COMMITMENTS - commitments.length) 0
    .ok (digestToBytes (pairHash (merkleRoot leaves 12) commitments.length))

/-- The proposer Server receiver of GetLocalHeader: its external collaborators
as fields, with the protocol-state handle type opaque. SyncCheckerSyncing is
the value of vs.SyncChecker.Syncing(), optimisticStatus is none when the check
passes and carries the error text otherwise, getParentState resolves the state
and parent root for a slot, and getLocalPayloadFromEngine produces the local
payload from state, parent root, slot and proposer index. -/
structure Server (σ : Type) where
  SyncCheckerSyncing : Bool
  optimisticStatus : Option String
  getParentState : Nat → Except GrpcError (σ × Bytes)
  getLocalPayloadFromEngine : σ → Bytes → Nat → Nat → Except String LocalPayload

/-- GetLocalHeader returns the local header for a given slot and proposer
index; embedding of the Go function, with the Go pair return value kept as a
pair of an optional header and an optional error. -/
def GetLocalHeader (cfg : BeaconConfig) {σ : Type} (vs : Server σ)
    (req : HeaderRequest) :
    Option ExecutionPayloadHeaderEPBS × Option GrpcError :=
  if vs.SyncCheckerSyncing then
    (none, some ⟨Code.FailedPrecondition, "Syncing to latest head, not ready to respond"⟩)
  else
    match vs.optimisticStatus with
    | some err =>
        (none, some ⟨Code.FailedPrecondition, "Validator is not ready to propose: " ++ err⟩)
    | none =>
      let slot := req.Slot
      let epoch := ToEpoch cfg slot
      if cfg.EPBSForkEpoch > epoch then
        (none, some ⟨Code.FailedPrecondition, "EPBS fork has not occurred yet"⟩)
      else
        match vs.getParentState slot with
        | .error err => (none, some err)
        | .ok (st, parentRoot) =>
          let proposerIndex := req.ProposerIndex
          match vs.getLocalPayloadFromEngine st parentRoot slot proposerIndex with
          | .error err =>
              (none, some ⟨Code.Internal, "Could not get local payload: " ++ err⟩)
          | .ok localPayload =>
            match KzgCommitmentsRoot localPayload.BlobsBundle.KzgCommitments with
            | .error err =>
                (none, some ⟨Code.Internal, "Could not get kzg commitments root: " ++ err⟩)
            | .ok kzgRoot =>
              (some { ParentBlockHash := localPayload.ExecutionData.ParentHash
                      ParentBlockRoot := parentRoot
                      BlockHash := localPayload.ExecutionData.BlockHash
                      GasLimit := localPayload.ExecutionData.GasLimit
                      BuilderIndex := proposerIndex
                      Slot := slot
                      Value := 0
                      BlobKzgCommitmentsRoot := kzgRoot }, none)

/-- The tail of the pipeline after the precondition gate: the resolver,
producer, commitment-root and assembly stages of GetLocalHeader. -/
def GetLocalHeaderAfterGate {σ : Type} (vs : Server σ) (req : HeaderRequest) :
    Option ExecutionPayloadHeaderEPBS × Option GrpcError :=
  let slot := req.Slot
  match vs.getParentState slot with
  | .error err => (none, some err)
  | .ok (st, parentRoot) =>
    let proposerIndex := req.ProposerIndex
    match vs.getLocalPayloadFromEngine st parentRoot slot proposerIndex with
    | .error err =>
        (none, some ⟨Code.Internal, "Could not get local payload: " ++ err⟩)
    | .ok localPayload =>
      match KzgCommitmentsRoot localPayload.BlobsBundle.KzgCommitments with
      | .error err =>
          (none, some ⟨Code.Internal, "Could not get kzg commitments root: " ++ err⟩)
      | .ok kzgRoot =>
        (some { ParentBlockHash := localPayload.ExecutionData.ParentHash
                ParentBlockRoot := parentRoot
                BlockHash := localPayload.ExecutionData.BlockHash
                GasLimit := localPayload.ExecutionData.GasLimit
                BuilderIndex := proposerIndex
                Slot := slot
                Value := 0
                BlobKzgCommitmentsRoot := kzgRoot }, none)

/-- The error returned when the node is syncing. -/
def syncingNotReadyError : GrpcError :=
  ⟨Code.FailedPrecondition, "Syncing to latest head, not ready to respond"⟩

/-- The error returned when the optimistic check fails, wrapping its cause. -/
def notReadyToProposeError (cause : String) : GrpcError :=
  ⟨Code.FailedPrecondition, "Validator is not ready to propose: " ++ cause⟩

/-- The error returned when the ePBS fork is not yet active at the slot. -/
def forkNotActiveError : GrpcError :=
  ⟨Code.FailedPrecondition, "EPBS fork has not occurred yet"⟩

theorem getLocalHeader_syncing (cfg : BeaconConfig) {σ : Type} (vs : Server σ)
    (req : HeaderRequest) (hs : vs.SyncCheckerSyncing = true) :
    GetLocalHeader cfg vs req = (none, some syncingNotReadyError) := by
  simp [GetLocalHeader, hs, syncingNotReadyError]

theorem getLocalHeader_optimistic (cfg : BeaconConfig) {σ : Type} (vs : Server σ)
    (req : HeaderRequest) (e : String) (hs : vs.SyncCheckerSyncing = false)
    (ho : vs.optimisticStatus = some e) :
    GetLocalHeader cfg vs req = (none, some (notReadyToProposeError e)) := by
  simp [GetLocalHeader, hs, ho, notReadyToProposeError]

theorem getLocalHeader_forkNotActive (cfg : BeaconConfig) {σ : Type} (vs : Server σ)
    (req : HeaderRequest) (hs : vs.SyncCheckerSyncing = false)
    (ho : vs.optimisticStatus = none) (hf : ToEpoch cfg req.Slot < cfg.EPBSForkEpoch) :
    GetLocalHeader cfg vs req = (none, some forkNotActiveError) := by
  simp [GetLocalHeader, hs, ho, hf, forkNotActiveError]

theorem getLocalHeader_pastGate (cfg : BeaconConfig) {σ : Type} (vs : Server σ)
    (req : HeaderRequest) (hs : vs.SyncCheckerSyncing = false)
    (ho : vs.optimisticStatus = none) (hf : cfg.EPBSForkEpoch ≤ ToEpoch cfg req.Slot) :
    GetLocalHeader cfg vs req = GetLocalHeaderAfterGate vs req := by
  simp only [GetLocalHeader, GetLocalHeaderAfterGate, hs, ho, Bool.false_eq_true,
    if_false, gt_iff_lt, Nat.not_lt.mpr hf, if_false]

theorem getLocalHeader_success_inv (cfg : BeaconConfig) {σ : Type} (vs : Server σ)
    (req : HeaderRequest) (hdr : ExecutionPayloadHeaderEPBS)
    (h : (GetLocalHeader cfg vs req).1 = some hdr) :
    vs.SyncCheckerSyncing = false ∧ vs.optimisticStatus = none ∧
    cfg.EPBSForkEpoch ≤ ToEpoch cfg req.Slot ∧
    ∃ st pr pl rt,
      vs.getParentState req.Slot = .ok (st, pr) ∧
      vs.getLocalPayloadFromEngine st pr req.Slot req.ProposerIndex = .ok pl ∧
      KzgCommitmentsRoot pl.BlobsBundle.KzgCommitments = .ok rt ∧
      hdr = { ParentBlockHash := pl.ExecutionData.ParentHash
              ParentBlockRoot := pr
              BlockHash := pl.ExecutionData.BlockHash
              GasLimit := pl.ExecutionData.GasLimit
              BuilderIndex := req.ProposerIndex
              Slot := req.Slot
              Value := 0
              BlobKzgCommitmentsRoot := rt } := by
  unfold GetLocalHeader at h
  split at h
  · simp at h
  · split at h
    · simp at h
    · dsimp only at h
      split at h
      · simp at h
      · rename_i hs hx ho hf
        refine ⟨by simpa using hs, ho, by simpa [Nat.not_lt] using hf, ?_⟩
        split at h
        · simp at h
        · rename_i st pr hst
          split at h
          · simp at h
          · rename_i pl hpl
            split at h
            · simp at h
            · rename_i rt hrt
              exact ⟨st, pr, pl, rt, hst, hpl, hrt, by simpa using h.symm⟩

/-- Concrete beacon config for witnesses: activation epoch 100, 32 slots per epoch. -/
def cfgW : BeaconConfig := ⟨100, 32⟩

/-- Concrete local payload for witnesses, carrying two commitments. -/
def payloadW : LocalPayload :=
  { ExecutionData := { ParentHash := [17], BlockHash := [34], GasLimit := 30000000 }
    BlobsBundle := { KzgCommitments := [[1, 2, 3], [4, 5]] } }

/-- Concrete healthy server for witnesses: not syncing, optimistic check passes,
resolver and producer succeed. -/
def vsW : Server Unit :=
  { SyncCheckerSyncing := false
    optimisticStatus := none
    getParentState := fun _ => .ok ((), [170])
    getLocalPayloadFromEngine := fun _ _ _ _ => .ok payloadW }

/-- Concrete syncing server for witnesses. -/
def vsSyncW : Server Unit := { vsW with SyncCheckerSyncing := true }

/-- Concrete server whose optimistic check fails, for witnesses. -/
def vsOptW : Server Unit := { vsW with optimisticStatus := some "head is optimistic" }

/-- Concrete request at the first slot of the activation epoch. -/
def reqW : HeaderRequest := ⟨3200, 7⟩

/-- Concrete request at a slot whose epoch 0 precedes the activation epoch. -/
def reqPreForkW : HeaderRequest := ⟨0, 7⟩

/-- C1 counterexample: with the node syncing and a pre-activation slot, the
call fails with the syncing NotReady error, not with ForkNotActive, so the
claim that ForkNotActive is returned regardless of sync state is false. -/
theorem C1_counterexample :
    ToEpoch cfgW reqPreForkW.Slot < cfgW.EPBSForkEpoch ∧
    GetLocalHeader cfgW vsSyncW reqPreForkW ≠ (none, some forkNotActiveError) ∧
    GetLocalHeader cfgW vsSyncW reqPreForkW = (none, some syncingNotReadyError) := by
  refine ⟨by decide, ?_, by decide⟩
  decide

/-- C1 amended: for every request whose slot satisfies
epoch(slot) < epbs_activation_epoch, GetLocalHeader fails, with ForkNotActive
whenever the node is not syncing and the optimistic check passes, and neither
the parent-state resolver nor the local payload producer is invoked: the result
is unchanged under arbitrary replacement of both collaborators. -/
theorem C1_preActivation_fails_without_collaborators (cfg : BeaconConfig)
    {σ : Type} (vs : Server σ) (req : HeaderRequest)
    (h : ToEpoch cfg req.Slot < cfg.EPBSForkEpoch) :
    (GetLocalHeader cfg vs req).1 = none ∧
    (vs.SyncCheckerSyncing = false → vs.optimisticStatus = none →
      GetLocalHeader cfg vs req = (none, some forkNotActiveError)) ∧
    (∀ (τ : Type) (gps : Nat → Except GrpcError (τ × Bytes))
        (glp : τ → Bytes → Nat → Nat → Except String LocalPayload),
      GetLocalHeader cfg
        ⟨vs.SyncCheckerSyncing, vs.optimisticStatus, gps, glp⟩ req =
      GetLocalHeader cfg vs req) := by
  have main : ∀ {τ : Type} (ws : Server τ),
      ws.SyncCheckerSyncing = vs.SyncCheckerSyncing →
      ws.optimisticStatus = vs.optimisticStatus →
      GetLocalHeader cfg ws req =
        (if vs.SyncCheckerSyncing then (none, some syncingNotReadyError)
         else match vs.optimisticStatus with
           | some e => (none, some (notReadyToProposeError e))
           | none => (none, some forkNotActiveError)) := by
    intro τ ws hws hwo
    by_cases hs : ws.SyncCheckerSyncing
    · rw [getLocalHeader_syncing cfg ws req hs, ← hws, hs]
      simp
    · cases hoc : ws.optimisticStatus with
      | some e =>
          rw [getLocalHeader_optimistic cfg ws req e (by simpa using hs) hoc,
            ← hws, ← hwo, hoc]
          simp [Bool.not_eq_true] at hs
          simp [hs]
      | none =>
          rw [getLocalHeader_forkNotActive cfg ws req (by simpa using hs) hoc h,
            ← hws, ← hwo, hoc]
          simp [Bool.not_eq_true] at hs
          simp [hs]
  refine ⟨?_, ?_, ?_⟩
  · rw [main vs rfl rfl]
    split
    · rfl
    · split <;> rfl
  · intro hs ho
    rw [main vs rfl rfl, hs, ho]
    simp
  · intro τ gps glp
    rw [main vs rfl rfl, main ⟨vs.SyncCheckerSyncing, vs.optimisticStatus, gps, glp⟩ rfl rfl]

/-- C2: the precondition gate evaluates its checks in the fixed order syncing,
then optimistic status, then fork activation; when several conditions are
violated at once the returned error is that of the earliest violated check. -/
theorem C2_gate_check_order (cfg : BeaconConfig) {σ : Type} (vs : Server σ)
    (req : HeaderRequest) :
    (vs.SyncCheckerSyncing = true →
      GetLocalHeader cfg vs req = (none, some syncingNotReadyError)) ∧
    (∀ e, vs.SyncCheckerSyncing = false → vs.optimisticStatus = some e →
      GetLocalHeader cfg vs req = (none, some (notReadyToProposeError e))) ∧
    (vs.SyncCheckerSyncing = false → vs.optimisticStatus = none →
      ToEpoch cfg req.Slot < cfg.EPBSForkEpoch →
      GetLocalHeader cfg vs req = (none, some forkNotActiveError)) :=
  ⟨fun hs => getLocalHeader_syncing cfg vs req hs,
   fun e hs ho => getLocalHeader_optimistic cfg vs req e hs ho,
   fun hs ho hf => getLocalHeader_forkNotActive cfg vs req hs ho hf⟩

/-- C2 witness: three concrete servers, each violating the fork-activation
check together with an earlier check, observe the earlier error. -/
theorem C2_gate_check_order_witness :
    GetLocalHeader cfgW vsSyncW reqPreForkW = (none, some syncingNotReadyError) ∧
    GetLocalHeader cfgW vsOptW reqPreForkW
      = (none, some (notReadyToProposeError "head is optimistic")) ∧
    GetLocalHeader cfgW vsW reqPreForkW = (none, some forkNotActiveError) :=
  ⟨(C2_gate_check_order cfgW vsSyncW reqPreForkW).1 (by decide),
   (C2_gate_check_order cfgW vsOptW reqPreForkW).2.1 "head is optimistic"
     (by decide) (by decide),
   (C2_gate_check_order cfgW vsW reqPreForkW).2.2 (by decide) (by decide) (by decide)⟩

/-- C3: if the sync checker reports syncing, GetLocalHeader fails with the
NotReady precondition error for every slot and proposer index, and the result
does not depend on the optimistic status, the resolver or the producer. -/
theorem C3_syncing_short_circuits (cfg : BeaconConfig) {σ : Type} (vs : Server σ)
    (req : HeaderRequest) (hs : vs.SyncCheckerSyncing = true) :
    GetLocalHeader cfg vs req = (none, some syncingNotReadyError) ∧
    syncingNotReadyError.code = Code.FailedPrecondition ∧
    ∀ (opt : Option String) (τ : Type) (gps : Nat → Except GrpcError (τ × Bytes))
        (glp : τ → Bytes → Nat → Nat → Except String LocalPayload),
      GetLocalHeader cfg ⟨vs.SyncCheckerSyncing, opt, gps, glp⟩ req =
      GetLocalHeader cfg vs req := by
  refine ⟨getLocalHeader_syncing cfg vs req hs, rfl, ?_⟩
  intro opt τ gps glp
  rw [getLocalHeader_syncing cfg vs req hs,
    getLocalHeader_syncing cfg _ req (by simpa using hs)]

/-- C3 witness: a concrete syncing server at a concrete request. -/
theorem C3_syncing_short_circuits_witness :
    GetLocalHeader cfgW vsSyncW reqW = (none, some syncingNotReadyError) :=
  (C3_syncing_short_circuits cfgW vsSyncW reqW (by decide)).1

/-- C5: given the node is not syncing and the optimistic check passes, the
gate computes epoch as slot divided by SLOTS_PER_EPOCH; for epoch below the
activation epoch the call fails with ForkNotActive, and for epoch at or above
it (in particular exactly at it) the pipeline proceeds past the gate, running
the resolver, producer, commitment-root and assembly stages. -/
theorem C5_fork_gate_boundary (cfg : BeaconConfig) {σ : Type} (vs : Server σ)
    (req : HeaderRequest) (hs : vs.SyncCheckerSyncing = false)
    (ho : vs.optimisticStatus = none) :
    ToEpoch cfg req.Slot = req.Slot / cfg.SlotsPerEpoch ∧
    (req.Slot / cfg.SlotsPerEpoch < cfg.EPBSForkEpoch →
      GetLocalHeader cfg vs req = (none, some forkNotActiveError)) ∧
    (cfg.EPBSForkEpoch ≤ req.Slot / cfg.SlotsPerEpoch →
      GetLocalHeader cfg vs req = GetLocalHeaderAfterGate vs req) ∧
    (req.Slot / cfg.SlotsPerEpoch = cfg.EPBSForkEpoch →
      GetLocalHeader cfg vs req = GetLocalHeaderAfterGate vs req) :=
  ⟨rfl,
   fun hf => getLocalHeader_forkNotActive cfg vs req hs ho hf,
   fun hf => getLocalHeader_pastGate cfg vs req hs ho hf,
   fun hf => getLocalHeader_pastGate cfg vs req hs ho (le_of_eq hf.symm)⟩

/-- C5 witness: at slot 3200 (epoch exactly 100, the activation epoch) the
healthy concrete server proceeds past the gate; at slot 0 it fails. -/
theorem C5_fork_gate_boundary_witness :
    GetLocalHeader cfgW vsW reqW = GetLocalHeaderAfterGate vsW reqW ∧
    GetLocalHeader cfgW vsW reqPreForkW = (none, some forkNotActiveError) :=
  ⟨(C5_fork_gate_boundary cfgW vsW reqW (by decide) (by decide)).2.2.2 (by decide),
   (C5_fork_gate_boundary cfgW vsW reqPreForkW (by decide) (by decide)).2.1 (by decide)⟩

/-- C1 witness: the amended statement at the concrete syncing server and
pre-activation request. -/
theorem C1_preActivation_witness :
    (GetLocalHeader cfgW vsSyncW reqPreForkW).1 = none :=
  (C1_preActivation_fails_without_collaborators cfgW vsSyncW reqPreForkW (by decide)).1

/-- The commitment root of the witness payload. -/
def kzgRootW : Bytes :=
  (KzgCommitmentsRoot payloadW.BlobsBundle.KzgCommitments).toOption.getD []

/-- The header the healthy witness server returns at the witness request. -/
def hdrW : ExecutionPayloadHeaderEPBS :=
  { ParentBlockHash := [17], ParentBlockRoot := [170], BlockHash := [34]
    GasLimit := 30000000, BuilderIndex := 7, Slot := 3200, Value := 0
    BlobKzgCommitmentsRoot := kzgRootW }

/-- C4: every successful call returns a header whose builder index equals the
request proposer index, whose value equals 0, and whose slot equals the
requested slot. -/
theorem C4_success_header_invariants (cfg : BeaconConfig) {σ : Type}
    (vs : Server σ) (req : HeaderRequest) (hdr : ExecutionPayloadHeaderEPBS)
    (h : (GetLocalHeader cfg vs req).1 = some hdr) :
    hdr.BuilderIndex = req.ProposerIndex ∧ hdr.Value = 0 ∧ hdr.Slot = req.Slot := by
  obtain ⟨-, -, -, st, pr, pl, rt, -, -, -, hh⟩ :=
    getLocalHeader_success_inv cfg vs req hdr h
  subst hh
  exact ⟨rfl, rfl, rfl⟩

/-- C4 witness: the concrete healthy run returns the witness header, whose
builder index, value and slot satisfy the invariants. -/
theorem C4_success_header_invariants_witness :
    hdrW.BuilderIndex = reqW.ProposerIndex ∧ hdrW.Value = 0 ∧ hdrW.Slot = reqW.Slot :=
  C4_success_header_invariants cfgW vsW reqW hdrW (by decide)

/-- C6: given the gates pass and the collaborators return the resolved parent,
payload and commitment root, the returned header maps every field exactly from
the pipeline inputs: parent block root from the resolver, parent block hash,
block hash and gas limit from the produced execution data, and the blob
commitments root computed over the payload commitment list. -/
theorem C6_success_field_mapping (cfg : BeaconConfig) {σ : Type} (vs : Server σ)
    (req : HeaderRequest) (st : σ) (pr : Bytes) (pl : LocalPayload) (rt : Bytes)
    (hs : vs.SyncCheckerSyncing = false) (ho : vs.optimisticStatus = none)
    (hf : cfg.EPBSForkEpoch ≤ ToEpoch cfg req.Slot)
    (hst : vs.getParentState req.Slot = .ok (st, pr))
    (hpl : vs.getLocalPayloadFromEngine st pr req.Slot req.ProposerIndex = .ok pl)
    (hrt : KzgCommitmentsRoot pl.BlobsBundle.KzgCommitments = .ok rt) :
    GetLocalHeader cfg vs req =
      (some { ParentBlockHash := pl.ExecutionData.ParentHash
              ParentBlockRoot := pr
              BlockHash := pl.ExecutionData.BlockHash
              GasLimit := pl.ExecutionData.GasLimit
              BuilderIndex := req.ProposerIndex
              Slot := req.Slot
              Value := 0
              BlobKzgCommitmentsRoot := rt }, none) := by
  rw [getLocalHeader_pastGate cfg vs req hs ho hf]
  simp [GetLocalHeaderAfterGate, hst, hpl, hrt]

/-- C6 witness: the concrete healthy run, resolver parent root 0xAA-style
value, payload with two commitments; the output equals the witness header. -/
theorem C6_success_field_mapping_witness :
    vsW.getParentState reqW.Slot = .ok ((), [170]) ∧
    GetLocalHeader cfgW vsW reqW = (some hdrW, none) :=
  ⟨rfl,
   C6_success_field_mapping cfgW vsW reqW () [170] payloadW kzgRootW
     (by decide) (by decide) (by decide) rfl rfl rfl⟩

/-- C7: the blob commitments root of a successful result is a deterministic
pure function of the ordered commitment list alone: two runs, over possibly
different configs, servers, state types, slots, proposer indices, resolved
states and parent roots, whose produced payloads carry the same ordered
commitments, return headers with the same commitments root. -/
theorem C7_commitment_root_pure (cfg1 cfg2 : BeaconConfig) {σ1 σ2 : Type}
    (vs1 : Server σ1) (vs2 : Server σ2) (req1 req2 : HeaderRequest)
    (hdr1 hdr2 : ExecutionPayloadHeaderEPBS) (st1 : σ1) (st2 : σ2)
    (pr1 pr2 : Bytes) (pl1 pl2 : LocalPayload)
    (h1 : (GetLocalHeader cfg1 vs1 req1).1 = some hdr1)
    (h2 : (GetLocalHeader cfg2 vs2 req2).1 = some hdr2)
    (hst1 : vs1.getParentState req1.Slot = .ok (st1, pr1))
    (hpl1 : vs1.getLocalPayloadFromEngine st1 pr1 req1.Slot req1.ProposerIndex = .ok pl1)
    (hst2 : vs2.getParentState req2.Slot = .ok (st2, pr2))
    (hpl2 : vs2.getLocalPayloadFromEngine st2 pr2 req2.Slot req2.ProposerIndex = .ok pl2)
    (hc : pl1.BlobsBundle.KzgCommitments = pl2.BlobsBundle.KzgCommitments) :
    hdr1.BlobKzgCommitmentsRoot = hdr2.BlobKzgCommitmentsRoot := by
  obtain ⟨-, -, -, sa, pa, la, ra, hsta, hpla, hrta, hha⟩ :=
    getLocalHeader_success_inv cfg1 vs1 req1 hdr1 h1
  obtain ⟨-, -, -, sb, pb, lb, rb, hstb, hplb, hrtb, hhb⟩ :=
    getLocalHeader_success_inv cfg2 vs2 req2 hdr2 h2
  rw [hst1] at hsta
  have hpa := Except.ok.inj hsta
  have hsa1 : sa = st1 := (congrArg Prod.fst hpa).symm
  have hpa1 : pa = pr1 := (congrArg Prod.snd hpa).symm
  subst hsa1 hpa1
  rw [hpl1] at hpla
  have hla : la = pl1 := (Except.ok.inj hpla).symm
  subst hla
  rw [hst2] at hstb
  have hpb := Except.ok.inj hstb
  have hsb1 : sb = st2 := (congrArg Prod.fst hpb).symm
  have hpb1 : pb = pr2 := (congrArg Prod.snd hpb).symm
  subst hsb1 hpb1
  rw [hpl2] at hplb
  have hlb : lb = pl2 := (Except.ok.inj hplb).symm
  subst hlb
  rw [hc] at hrta
  rw [hrta] at hrtb
  have hr : ra = rb := Except.ok.inj hrtb
  subst hha hhb
  simpa using hr

/-- A second concrete healthy server for the C7 witness: different state type,
parent root, execution data, slot and proposer, same ordered commitments. -/
def payloadW2 : LocalPayload :=
  { ExecutionData := { ParentHash := [99], BlockHash := [88], GasLimit := 15000000 }
    BlobsBundle := { KzgCommitments := [[1, 2, 3], [4, 5]] } }

/-- Second witness server for C7, over state type Bool. -/
def vsW2 : Server Bool :=
  { SyncCheckerSyncing := false
    optimisticStatus := none
    getParentState := fun _ => .ok (true, [187])
    getLocalPayloadFromEngine := fun _ _ _ _ => .ok payloadW2 }

/-- Second witness config and request for C7: different activation epoch,
slots per epoch, slot and proposer index. -/
def cfgW2 : BeaconConfig := ⟨50, 64⟩

/-- Second witness request for C7. -/
def reqW2 : HeaderRequest := ⟨6400, 9⟩

/-- The header the second witness server returns at the second request. -/
def hdrW2 : ExecutionPayloadHeaderEPBS :=
  { ParentBlockHash := [99], ParentBlockRoot := [187], BlockHash := [88]
    GasLimit := 15000000, BuilderIndex := 9, Slot := 6400, Value := 0
    BlobKzgCommitmentsRoot := kzgRootW }

/-- C7 witness: the two concrete runs differ in config, state type, parent
root, execution data, slot and proposer index, share the ordered commitment
list, and return the same commitments root. -/
theorem C7_commitment_root_pure_witness :
    (GetLocalHeader cfgW vsW reqW).1 = some hdrW ∧
    (GetLocalHeader cfgW2 vsW2 reqW2).1 = some hdrW2 ∧
    hdrW.BlobKzgCommitmentsRoot = hdrW2.BlobKzgCommitmentsRoot :=
  ⟨by decide, by decide,
   C7_commitment_root_pure cfgW cfgW2 vsW vsW2 reqW reqW2 hdrW hdrW2 () true
     [170] [187] payloadW payloadW2 (by decide) (by decide) rfl rfl rfl rfl
     (by decide)⟩

/-- The internal-failure error wrapping a payload producer error. -/
def localPayloadInternalError (cause : String) : GrpcError :=
  ⟨Code.Internal, "Could not get local payload: " ++ cause⟩

/-- The internal-failure error wrapping a commitment-root error. -/
def kzgRootInternalError (cause : String) : GrpcError :=
  ⟨Code.Internal, "Could not get kzg commitments root: " ++ cause⟩

/-- C8: after the gate, a resolver error is returned to the caller unchanged,
while a payload-producer error and a commitment-root serialization error are
returned as internal-failure statuses wrapping the original cause. -/
theorem C8_post_gate_error_classification (cfg : BeaconConfig) {σ : Type}
    (vs : Server σ) (req : HeaderRequest) (hs : vs.SyncCheckerSyncing = false)
    (ho : vs.optimisticStatus = none)
    (hf : cfg.EPBSForkEpoch ≤ ToEpoch cfg req.Slot) :
    (∀ e, vs.getParentState req.Slot = .error e →
      GetLocalHeader cfg vs req = (none, some e)) ∧
    (∀ st pr m, vs.getParentState req.Slot = .ok (st, pr) →
      vs.getLocalPayloadFromEngine st pr req.Slot req.ProposerIndex = .error m →
      GetLocalHeader cfg vs req = (none, some (localPayloadInternalError m))) ∧
    (∀ st pr pl m, vs.getParentState req.Slot = .ok (st, pr) →
      vs.getLocalPayloadFromEngine st pr req.Slot req.ProposerIndex = .ok pl →
      KzgCommitmentsRoot pl.BlobsBundle.KzgCommitments = .error m →
      GetLocalHeader cfg vs req = (none, some (kzgRootInternalError m))) := by
  refine ⟨?_, ?_, ?_⟩
  · intro e hst
    rw [getLocalHeader_pastGate cfg vs req hs ho hf]
    simp [GetLocalHeaderAfterGate, hst]
  · intro st pr m hst hpl
    rw [getLocalHeader_pastGate cfg vs req hs ho hf]
    simp [GetLocalHeaderAfterGate, hst, hpl, localPayloadInternalError]
  · intro st pr pl m hst hpl hrt
    rw [getLocalHeader_pastGate cfg vs req hs ho hf]
    simp [GetLocalHeaderAfterGate, hst, hpl, hrt, kzgRootInternalError]

/-- Witness server whose resolver fails with a NotFound status. -/
def vsResolveErrW : Server Unit :=
  { vsW with getParentState := fun _ => .error ⟨Code.NotFound, "state not found"⟩ }

/-- Witness server whose payload producer fails. -/
def vsProduceErrW : Server Unit :=
  { vsW with getLocalPayloadFromEngine := fun _ _ _ _ => .error "engine down" }

/-- Witness payload carrying more commitments than the protocol maximum. -/
def payloadBigW : LocalPayload :=
  { ExecutionData := { ParentHash := [17], BlockHash := [34], GasLimit := 30000000 }
    BlobsBundle := { KzgCommitments := List.replicate 4097 [] } }

/-- Witness server whose payload exceeds the commitment capacity. -/
def vsKzgErrW : Server Unit :=
  { vsW with getLocalPayloadFromEngine := fun _ _ _ _ => .ok payloadBigW }

theorem kzgCommitmentsRoot_payloadBigW :
    KzgCommitmentsRoot payloadBigW.BlobsBundle.KzgCommitments
      = .error "ssz: commitment list exceeds maximum capacity" := by
  have h : payloadBigW.BlobsBundle.KzgCommitments = List.replicate 4097 ([] : Bytes) := rfl
  rw [h]
  unfold KzgCommitmentsRoot
  rw [if_pos]
  rw [List.length_replicate]
  decide

/-- C8 witness: the three concrete failing servers observe, in order, the
unchanged NotFound resolver error, the wrapped internal producer error, and
the wrapped internal commitment-root error. -/
theorem C8_post_gate_error_classification_witness :
    GetLocalHeader cfgW vsResolveErrW reqW
      = (none, some ⟨Code.NotFound, "state not found"⟩) ∧
    GetLocalHeader cfgW vsProduceErrW reqW
      = (none, some (localPayloadInternalError "engine down")) ∧
    GetLocalHeader cfgW vsKzgErrW reqW
      = (none, some (kzgRootInternalError "ssz: commitment list exceeds maximum capacity")) :=
  ⟨(C8_post_gate_error_classification cfgW vsResolveErrW reqW
      (by decide) (by decide) (by decide)).1 ⟨Code.NotFound, "state not found"⟩ rfl,
   (C8_post_gate_error_classification cfgW vsProduceErrW reqW
      (by decide) (by decide) (by decide)).2.1 () [170] "engine down" rfl rfl,
   (C8_post_gate_error_classification cfgW vsKzgErrW reqW
      (by decide) (by decide) (by decide)).2.2 () [170] payloadBigW
      "ssz: commitment list exceeds maximum capacity" rfl rfl
      kzgCommitmentsRoot_payloadBigW⟩

/-- C9: GetLocalHeader returns a header exactly when it returns no error: on
every failure path of every stage the header component is none, and on the
success path the error component is none. -/
theorem C9_header_iff_no_error (cfg : BeaconConfig) {σ : Type} (vs : Server σ)
    (req : HeaderRequest) :
    (GetLocalHeader cfg vs req).1.isSome = true ↔
    (GetLocalHeader cfg vs req).2 = none := by
  unfold GetLocalHeader
  split
  · simp
  · split
    · simp
    · dsimp only
      split
      · simp
      · split
        · simp
        · split
          · simp
          · split <;> simp

end validator

namespace httprest

/-- The router handle is opaque to the constructor: only its presence and
identity matter. -/
abbrev Router : Type := Nat

/-- Config parameters for setting up the http-rest service, as in the Go
config struct; the function-typed handler field is modelled opaquely. -/
structure Config where
  httpAddr : String
  allowedOrigins : List String
  handler : Option Nat
  router : Option Router
  timeout : Nat
deriving DecidableEq

/-- The inner http.Server the constructor builds: address, handler and
read-header timeout in nanoseconds. -/
structure HTTPServer where
  Addr : String
  Handler : Router
  ReadHeaderTimeout : Nat
deriving DecidableEq

/-- The http-rest Server: its config and, once constructed, the inner
http.Server; the context, cancel and start-failure fields are runtime-only
and unused by New. -/
structure GServer where
  cfg : Config
  server : Option HTTPServer
deriving DecidableEq

/-- A functional option: may update the server under construction or fail. -/
abbrev ServerOption : Type := GServer → Except String GServer

/-- The server value New starts from: a fresh Server with an empty config. -/
def initialServer : GServer :=
  { cfg := { httpAddr := "", allowedOrigins := [], handler := none,
             router := none, timeout := 0 }
    server := none }

/-- Apply the options in order, stopping at the first error, as the loop in
New does. -/
def applyOptions : List ServerOption → GServer → Except String GServer
  | [], g => .ok g
  | opt :: rest, g =>
    match opt g with
    | .error e => .error e
    | .ok g2 => applyOptions rest g2

/-- One second, in nanoseconds: the value of time.Second. -/
def timeSecond : Nat := 1000000000

/-- New returns a new instance of the Server: embedding of the Go
constructor, with the pointer-and-error return modelled as Except. -/
def New (opts : List ServerOption) : Except String GServer :=
  match applyOptions opts initialServer with
  | .error e => .error e
  | .ok g =>
    match g.cfg.router with
    | none => .error "router option not configured"
    | some r =>
      .ok { g with server := some { Addr := g.cfg.httpAddr, Handler := r,
                                    ReadHeaderTimeout := timeSecond } }

/-- C10: New returns an error and no server whenever any option returns an
error or no router is configured; otherwise it returns a server whose handler
is the configured router and whose read-header timeout is one second,
ignoring the configured timeout value. -/
theorem C10_new_server (opts : List ServerOption) :
    (∀ e, applyOptions opts initialServer = .error e → New opts = .error e) ∧
    (∀ g, applyOptions opts initialServer = .ok g → g.cfg.router = none →
      New opts = .error "router option not configured") ∧
    (∀ g r, applyOptions opts initialServer = .ok g → g.cfg.router = some r →
      New opts = .ok { g with server := some { Addr := g.cfg.httpAddr
                                               Handler := r
                                               ReadHeaderTimeout := timeSecond } }) := by
  refine ⟨?_, ?_, ?_⟩
  · intro e h
    simp [New, h]
  · intro g h hr
    simp [New, h, hr]
  · intro g r h hr
    simp [New, h, hr]

/-- A concrete option configuring a router and a nonzero timeout. -/
def optRouterW : ServerOption := fun g =>
  .ok { g with cfg := { g.cfg with router := some 1, timeout := 5 } }

/-- A concrete failing option. -/
def optFailW : ServerOption := fun _ => .error "boom"

/-- C10 witness: a failing option propagates its error, an empty option list
leaves the router unconfigured, and a router option yields a server whose
read-header timeout is one second although the configured timeout is 5. -/
theorem C10_new_server_witness :
    New [optFailW] = .error "boom" ∧
    New [] = .error "router option not configured" ∧
    New [optRouterW] =
      .ok { cfg := { httpAddr := "", allowedOrigins := [], handler := none,
                     router := some 1, timeout := 5 }
            server := some { Addr := "", Handler := 1,
                             ReadHeaderTimeout := timeSecond } } ∧
    timeSecond ≠ 5 :=
  ⟨(C10_new_server [optFailW]).1 "boom" rfl,
   (C10_new_server []).2.1 initialServer rfl rfl,
   (C10_new_server [optRouterW]).2.2 _ 1 rfl rfl,
   by decide⟩

end httprest
